import Mathlib

/-!
Shallow embedding of `py_random_dot_org/basic_api.py`: a client wrapper for
the random.org JSON-RPC Basic API.  Python dynamic values are modelled by
`PyVal`, the HTTP transport by an oracle `TransportResult`, logging by an
explicit list of `LogEvent`s, and Python exceptions that escape to the
caller by `Except PyExc`.
-/

namespace RandomOrg

/-- Python values as they occur in this module: JSON-like data plus the
`list[int]` type expression that `generate_integer_sequences` places into
its payload. -/
inductive PyVal where
  | none
  | bool (b : Bool)
  | int (n : Int)
  | str (s : String)
  | list (xs : List PyVal)
  | dict (kvs : List (String × PyVal))
  | typeExpr (s : String)

/-- Python `x[key]` on a dict; a missing key or a non-dict raises, modelled
as `Option.none` (the call sites catch every exception alike). -/
def PyVal.getItem : PyVal → String → Option PyVal
  | .dict kvs, k => List.lookup k kvs
  | _, _ => Option.none

/-- Whether a value is a Python `int`. -/
def PyVal.isInt : PyVal → Bool
  | .int _ => true
  | _ => false

/-- One emitted log record (level and message). -/
inductive LogEvent where
  | error (msg : String)
  | warning (msg : String)
  | debug (msg : String)
deriving Repr, DecidableEq

/-- A Python exception escaping to the caller. -/
inductive PyExc where
  | typeError (msg : String)
deriving Repr, DecidableEq

/-- An HTTP response: a status code and the body; `content = Option.none`
models a body that `json.loads` cannot decode. -/
structure HttpResponse where
  status_code : Int
  content : Option PyVal

/-- Outcome of `requests.post`: a connection failure or a response. -/
inductive TransportResult where
  | connError
  | response (r : HttpResponse)

/-- The client configuration set up by `BasicApi.__init__`. -/
structure BasicApi where
  url : String
  api_key : String
  version_str : String
  warn_below_quota_requests : Int
  warn_below_quota_bits : Int
deriving Repr, DecidableEq

/-- `BasicApi.__init__`. -/
def BasicApi.make (api_key : String) (version : Int) (version_str : String)
    (warn_below_quota_requests : Int) (warn_below_quota_bits : Int) : BasicApi :=
  { url := "https://api.random.org/json-rpc/" ++ toString version ++ "/invoke"
    api_key := api_key
    version_str := version_str
    warn_below_quota_requests := warn_below_quota_requests
    warn_below_quota_bits := warn_below_quota_bits }

/-- The f-string logged on a caught connection error. -/
def connectionErrorMsg (method : String) : String :=
  "A ConnectionError occured during basicApi." ++ method ++ "()"

/-- The warning logged on a non-2xx status code. -/
def nonSuccessMsg (method : String) : String :=
  "Response Code indicates non succesful request for basicApi." ++ method ++ "()"

/-- The error logged when the response body cannot be decoded or lacks fields. -/
def decodeErrorMsg (method : String) : String :=
  "Could not decode the http response of basicApi." ++ method ++ "()"

/-- The debug message logged on success. -/
def successMsg (method : String) : String :=
  "Sucessfully retrieved basicApi." ++ method ++ "()"

/-- Python `v < n` for an `int` right operand: defined for `int` left
operands, a `TypeError` otherwise. -/
def pyLt : PyVal → Int → Except PyExc Bool
  | .int m, n => .ok (decide (m < n))
  | _, _ => .error (.typeError "unorderable types in comparison with int")

namespace BasicApi

/-- `BasicApi._robust_http_request`: posts the payload; a connection error
is caught, logged, and turned into `None`. -/
def robust_http_request (_api : BasicApi) (_payload : PyVal) (method : String)
    (transport : TransportResult) : Option HttpResponse × List LogEvent :=
  match transport with
  | .connError => (Option.none, [.error (connectionErrorMsg method)])
  | .response r => (some r, [])

/-- `BasicApi._is_response_successful`: logs a warning and returns `True`
when the status code is outside `200..299`, else `False`. -/
def is_response_successful (status_code : Int) (method : String) :
    Bool × List LogEvent :=
  if ¬(200 ≤ status_code ∧ status_code ≤ 299) then
    (true, [.warning (nonSuccessMsg method)])
  else
    (false, [])

/-- `BasicApi._extract_result`: decodes the body, projects the result with
the operation's retrieval function and reads the two quota counters; any
exception in the `try` block is caught, logged, and yields `None`. -/
def extract_result (response : Option HttpResponse)
    (data_retrieve_func : PyVal → Option PyVal) (method : String) :
    Option (PyVal × PyVal × PyVal) × List LogEvent :=
  let attempt : Option (PyVal × PyVal × PyVal) := do
    let r ← response
    let parsed ← r.content
    let response_result ← parsed.getItem "result"
    let response_data ← data_retrieve_func response_result
    let requests_left ← response_result.getItem "requestsLeft"
    let bits_left ← response_result.getItem "bitsLeft"
    pure (response_data, requests_left, bits_left)
  match attempt with
  | some t => (some t, [])
  | Option.none => (Option.none, [.error (decodeErrorMsg method)])

/-- The bit-quota half of `BasicApi._is_low_quota`: reached only when the
request-quota check did not return. -/
def is_low_quota_bits (api : BasicApi) (bits_left : PyVal) :
    Except PyExc Bool × List LogEvent :=
  if api.warn_below_quota_bits ≠ 0 then
    match pyLt bits_left api.warn_below_quota_bits with
    | .error e => (.error e, [])
    | .ok true => (.ok true, [.warning "Low Bit-Quota for API."])
    | .ok false => (.ok false, [])
  else
    (.ok false, [])

/-- `BasicApi._is_low_quota`: warns and returns `True` on the first
triggered threshold; the comparison may raise a `TypeError` when the
counter is not an `int` and the threshold is truthy. -/
def is_low_quota (api : BasicApi) (requests_left bits_left : PyVal) :
    Except PyExc Bool × List LogEvent :=
  if api.warn_below_quota_requests ≠ 0 then
    match pyLt requests_left api.warn_below_quota_requests with
    | .error e => (.error e, [])
    | .ok true => (.ok true, [.warning "Low Request-Quota for API."])
    | .ok false => is_low_quota_bits api bits_left
  else
    is_low_quota_bits api bits_left

/-- `BasicApi._log_sucess`. -/
def log_sucess (method : String) : LogEvent :=
  .debug (successMsg method)

/-- Outcome of one public operation: the value returned to the caller (or
the exception that reached it), the emitted log events in order, and the
client's configuration after the call. -/
structure OpResult where
  value : Except PyExc PyVal
  logs : List LogEvent
  state : BasicApi

/-- `BasicApi._request`: the shared pipeline.  Every helper call passes the
string literal `"generate_integers"`, ignoring the `method` argument.  The
tuple-unpacking of `_extract_result`'s return raises a `TypeError` whenever
extraction failed (it returned `None`).  No attribute of `self` is assigned
anywhere in the pipeline, so the configuration after the call is the one it
started with. -/
def request (api : BasicApi) (_method : String) (request_payload : PyVal)
    (data_retrieve_func : PyVal → Option PyVal) (transport : TransportResult) :
    OpResult :=
  let rh := robust_http_request api request_payload "generate_integers" transport
  let statusLogs : List LogEvent :=
    match rh.1 with
    | some r => (is_response_successful r.status_code "generate_integers").2
    | Option.none => []
  let ex := extract_result rh.1 data_retrieve_func "generate_integers"
  match ex.1 with
  | Option.none =>
      { value := .error (.typeError "cannot unpack non-iterable NoneType")
        logs := rh.2 ++ statusLogs ++ ex.2
        state := api }
  | some (response_data, requests_left, bits_left) =>
      let lq := is_low_quota api requests_left bits_left
      match lq.1 with
      | .error e =>
          { value := .error e
            logs := rh.2 ++ statusLogs ++ ex.2 ++ lq.2
            state := api }
      | .ok _ =>
          { value := .ok response_data
            logs := rh.2 ++ statusLogs ++ ex.2 ++ lq.2
                      ++ [log_sucess "generate_integers"]
            state := api }

/-- The projection `lambda x: x["random"]["data"]` shared by all generation
operations. -/
def randomData : PyVal → Option PyVal := fun x =>
  (x.getItem "random").bind fun r => r.getItem "data"

/-- The projection used by `get_usage`, building the snake_case mapping. -/
def usageData : PyVal → Option PyVal := fun x =>
  (x.getItem "bitsLeft").bind fun bl =>
  (x.getItem "requestsLeft").bind fun rl =>
  (x.getItem "totalBits").bind fun tb =>
  (x.getItem "totalRequests").bind fun tr =>
  some (.dict [("bits_left", bl), ("requests_left", rl),
               ("total_bits", tb), ("total_requests", tr)])

/-- `BasicApi.generate_integers`: payload construction and pipeline call.
`pregenerateRandomiztion` is accepted but never placed into the payload,
as in the source. -/
def generate_integers (api : BasicApi) (num minimum maximum : Int)
    (replacement : Bool) (base : Int) (_pregenerateRandomiztion : PyVal)
    (id : Int) (transport : TransportResult) : OpResult :=
  let payload : PyVal := .dict
    [("jsonrpc", .str api.version_str),
     ("method", .str "generateIntegers"),
     ("params", .dict
       [("apiKey", .str api.api_key),
        ("n", .int num),
        ("min", .int minimum),
        ("max", .int maximum),
        ("replacement", .bool replacement),
        ("base", .int base)]),
     ("id", .int id)]
  request api "generate_integers" payload randomData transport

/-- The payload built by `BasicApi.generate_integer_sequences`.  The
`"base"` entry is the type expression `list[int]`, not the caller's `base`
argument, exactly as in the source. -/
def generate_integer_sequences_payload (api : BasicApi) (num : Int)
    (length minimum maximum replacement _base : PyVal) (id : Int) : PyVal :=
  .dict
    [("jsonrpc", .str api.version_str),
     ("method", .str "generateIntegerSequences"),
     ("params", .dict
       [("apiKey", .str api.api_key),
        ("n", .int num),
        ("length", length),
        ("min", minimum),
        ("max", maximum),
        ("replacement", replacement),
        ("base", .typeExpr "list[int]")]),
     ("id", .int id)]

/-- `BasicApi.generate_integer_sequences`. -/
def generate_integer_sequences (api : BasicApi) (num : Int)
    (length minimum maximum replacement base : PyVal) (id : Int)
    (transport : TransportResult) : OpResult :=
  request api "generate_integer_sequences"
    (generate_integer_sequences_payload api num length minimum maximum
      replacement base id)
    randomData transport

/-- `BasicApi.generate_decimal_fractions`. -/
def generate_decimal_fractions (api : BasicApi) (num decimal_places : Int)
    (replacement : Bool) (id : Int) (transport : TransportResult) : OpResult :=
  let payload : PyVal := .dict
    [("jsonrpc", .str api.version_str),
     ("method", .str "generateDecimalFractions"),
     ("params", .dict
       [("apiKey", .str api.api_key),
        ("n", .int num),
        ("decimalPlaces", .int decimal_places),
        ("replacement", .bool replacement)]),
     ("id", .int id)]
  request api "generate_decimal_fractions" payload randomData transport

/-- `BasicApi.generate_gaussians`; `mean` and `standard_deviation` are
floats in the source and stay opaque `PyVal`s here. -/
def generate_gaussians (api : BasicApi) (num : Int)
    (mean standard_deviation : PyVal) (significant_digits : Int) (id : Int)
    (transport : TransportResult) : OpResult :=
  let payload : PyVal := .dict
    [("jsonrpc", .str api.version_str),
     ("method", .str "generateGaussians"),
     ("params", .dict
       [("apiKey", .str api.api_key),
        ("n", .int num),
        ("mean", mean),
        ("standardDeviation", standard_deviation),
        ("significantDigits", .int significant_digits)]),
     ("id", .int id)]
  request api "generate_gaussians" payload randomData transport

/-- `BasicApi.generate_strings`. -/
def generate_strings (api : BasicApi) (num length : Int) (characters : String)
    (replacement : Bool) (id : Int) (transport : TransportResult) : OpResult :=
  let payload : PyVal := .dict
    [("jsonrpc", .str api.version_str),
     ("method", .str "generateStrings"),
     ("params", .dict
       [("apiKey", .str api.api_key),
        ("n", .int num),
        ("length", .int length),
        ("characters", .str characters),
        ("replacement", .bool replacement)]),
     ("id", .int id)]
  request api "generate_strings" payload randomData transport

/-- `BasicApi.generate_uuids`. -/
def generate_uuids (api : BasicApi) (num : Int) (id : Int)
    (transport : TransportResult) : OpResult :=
  let payload : PyVal := .dict
    [("jsonrpc", .str api.version_str),
     ("method", .str "generateUUIDs"),
     ("params", .dict [("apiKey", .str api.api_key), ("n", .int num)]),
     ("id", .int id)]
  request api "generate_uuids" payload randomData transport

/-- `BasicApi.generate_blobs`. -/
def generate_blobs (api : BasicApi) (num size : Int) (id : Int)
    (transport : TransportResult) : OpResult :=
  let payload : PyVal := .dict
    [("jsonrpc", .str api.version_str),
     ("method", .str "generateBlobs"),
     ("params", .dict
       [("apiKey", .str api.api_key),
        ("n", .int num),
        ("size", .int size)]),
     ("id", .int id)]
  request api "generate_blobs" payload randomData transport

/-- `BasicApi.get_usage`. -/
def get_usage (api : BasicApi) (id : Int) (transport : TransportResult) :
    OpResult :=
  let payload : PyVal := .dict
    [("jsonrpc", .str api.version_str),
     ("method", .str "getUsage"),
     ("params", .dict [("apiKey", .str api.api_key)]),
     ("id", .int id)]
  request api "get_usage" payload usageData transport

/-- Whether the quota comparison in the pipeline is safe for this transport
outcome: vacuously when extraction fails, and otherwise when both extracted
counters are Python `int`s. -/
def quotaCountersSafe (data_retrieve_func : PyVal → Option PyVal)
    (transport : TransportResult) : Bool :=
  match transport with
  | .connError => true
  | .response r =>
    match (extract_result (some r) data_retrieve_func "generate_integers").1 with
    | Option.none => true
    | some (_, requests_left, bits_left) =>
        requests_left.isInt && bits_left.isInt

/-- A well-formed generation response body: a `result` object holding
`random.data` and the two integer quota counters. -/
def generationBody (d : PyVal) (rl bl : Int) : PyVal :=
  .dict [("result", .dict
    [("random", .dict [("data", d)]),
     ("requestsLeft", .int rl),
     ("bitsLeft", .int bl)])]

/-- A well-formed usage response body carrying the four usage fields. -/
def usageBody (bl rl : Int) (tb tr : PyVal) : PyVal :=
  .dict [("result", .dict
    [("bitsLeft", .int bl),
     ("requestsLeft", .int rl),
     ("totalBits", tb),
     ("totalRequests", tr)])]

/-- The client as built by the test-suite fixture. -/
def apiT : BasicApi := BasicApi.make "test_api_key" 4 "4.0" 0 0

/-- A client with both warning thresholds set. -/
def apiW : BasicApi := BasicApi.make "test_api_key" 4 "4.0" 5 5

/-- A well-formed generation body whose `requestsLeft` counter is a string
rather than an integer. -/
def nonIntCounterBody : PyVal :=
  .dict [("result", .dict
    [("random", .dict [("data", .list [.int 1])]),
     ("requestsLeft", .str "many"),
     ("bitsLeft", .int 1000)])]

/-- The six log messages the pipeline can ever emit; the four method-tagged
ones all carry the literal `"generate_integers"`. -/
def taggedPipelineLogs : List LogEvent :=
  [.error (connectionErrorMsg "generate_integers"),
   .warning (nonSuccessMsg "generate_integers"),
   .error (decodeErrorMsg "generate_integers"),
   .debug (successMsg "generate_integers"),
   .warning "Low Request-Quota for API.",
   .warning "Low Bit-Quota for API."]

/-- With integer counters the quota check never raises. -/
theorem is_low_quota_bits_int_ok (api : BasicApi) (m : Int) :
    ∃ b, (is_low_quota_bits api (PyVal.int m)).1 = Except.ok b := by
  unfold is_low_quota_bits pyLt
  split
  · split
    next e heq => simp at heq
    next => exact ⟨true, rfl⟩
    next => exact ⟨false, rfl⟩
  · exact ⟨false, rfl⟩

/-- With integer counters `_is_low_quota` never raises. -/
theorem is_low_quota_int_ok (api : BasicApi) (n m : Int) :
    ∃ b, (is_low_quota api (PyVal.int n) (PyVal.int m)).1 = Except.ok b := by
  unfold is_low_quota pyLt
  split
  · split
    next e heq => simp at heq
    next => exact ⟨true, rfl⟩
    next => exact is_low_quota_bits_int_ok api m
  · exact is_low_quota_bits_int_ok api m

/-- When extraction succeeds with integer quota counters, the pipeline
returns the extracted data. -/
theorem request_ok (api : BasicApi) (method : String) (p : PyVal)
    (f : PyVal → Option PyVal) (r : HttpResponse) (d : PyVal) (rl bl : Int)
    (hex : (extract_result (some r) f "generate_integers").1
            = some (d, PyVal.int rl, PyVal.int bl)) :
    (request api method p f (.response r)).value = .ok d := by
  obtain ⟨b, hb⟩ := is_low_quota_int_ok api rl bl
  simp only [request, robust_http_request]
  rw [hex]
  simp only [hb]

/-- The pipeline never mutates the configuration. -/
theorem request_state (api : BasicApi) (m : String) (p : PyVal)
    (f : PyVal → Option PyVal) (t : TransportResult) :
    (request api m p f t).state = api := by
  simp only [request]
  split
  · rfl
  · split <;> rfl

/-- On a non-2xx status with a well-formed body, the pipeline both logs the
status warning and still returns the extracted data. -/
theorem request_non2xx (api : BasicApi) (m : String) (p : PyVal)
    (f : PyVal → Option PyVal) (r : HttpResponse) (d : PyVal) (rl bl : Int)
    (hs : ¬(200 ≤ r.status_code ∧ r.status_code ≤ 299))
    (hex : (extract_result (some r) f "generate_integers").1
            = some (d, PyVal.int rl, PyVal.int bl)) :
    (request api m p f (.response r)).value = .ok d
    ∧ LogEvent.warning (nonSuccessMsg "generate_integers")
        ∈ (request api m p f (.response r)).logs := by
  obtain ⟨b, hb⟩ := is_low_quota_int_ok api rl bl
  simp only [request, robust_http_request, is_response_successful, if_pos hs]
  rw [hex]
  simp only [hb]
  exact ⟨by trivial, by simp⟩

/-- The returned value does not depend on the two warning thresholds as
long as the quota comparison cannot raise. -/
theorem request_value_cfg (u k v : String) (wr wb wr2 wb2 : Int)
    (m m2 : String) (p p2 : PyVal) (f : PyVal → Option PyVal)
    (t : TransportResult) (h : quotaCountersSafe f t = true) :
    (request ⟨u, k, v, wr, wb⟩ m p f t).value
      = (request ⟨u, k, v, wr2, wb2⟩ m2 p2 f t).value := by
  cases t with
  | connError => rfl
  | response r =>
    simp only [quotaCountersSafe] at h
    rcases hec : (extract_result (some r) f "generate_integers").1
      with _ | ⟨d, rl, bl⟩
    · simp only [request, robust_http_request]
      rw [hec]
    · rw [hec] at h
      simp only [Bool.and_eq_true] at h
      obtain ⟨h1, h2⟩ := h
      cases rl with
      | int n =>
        cases bl with
        | int mm =>
          obtain ⟨b1, hb1⟩ := is_low_quota_int_ok ⟨u, k, v, wr, wb⟩ n mm
          obtain ⟨b2, hb2⟩ := is_low_quota_int_ok ⟨u, k, v, wr2, wb2⟩ n mm
          simp only [request, robust_http_request]
          rw [hec]
          simp only [hb1, hb2]
        | none => simp [PyVal.isInt] at h2
        | bool b => simp [PyVal.isInt] at h2
        | str s => simp [PyVal.isInt] at h2
        | list xs => simp [PyVal.isInt] at h2
        | dict kvs => simp [PyVal.isInt] at h2
        | typeExpr s => simp [PyVal.isInt] at h2
      | none => simp [PyVal.isInt] at h1
      | bool b => simp [PyVal.isInt] at h1
      | str s => simp [PyVal.isInt] at h1
      | list xs => simp [PyVal.isInt] at h1
      | dict kvs => simp [PyVal.isInt] at h1
      | typeExpr s => simp [PyVal.isInt] at h1

/-- Every status-check log is the non-success warning. -/
theorem is_response_successful_logs (s : Int) (m : String) :
    ∀ e ∈ (is_response_successful s m).2,
      e = LogEvent.warning (nonSuccessMsg m) := by
  unfold is_response_successful
  split <;> simp

/-- Every extraction log is the decode error. -/
theorem extract_result_logs (resp : Option HttpResponse)
    (f : PyVal → Option PyVal) (m : String) :
    ∀ e ∈ (extract_result resp f m).2, e = LogEvent.error (decodeErrorMsg m) := by
  simp only [extract_result]
  split <;> simp

/-- Every bit-quota log is the bit warning. -/
theorem is_low_quota_bits_logs (api : BasicApi) (bl : PyVal) :
    ∀ e ∈ (is_low_quota_bits api bl).2,
      e = LogEvent.warning "Low Bit-Quota for API." := by
  unfold is_low_quota_bits
  split
  · split <;> simp
  · simp

/-- Every quota log is one of the two quota warnings. -/
theorem is_low_quota_logs (api : BasicApi) (rl bl : PyVal) :
    ∀ e ∈ (is_low_quota api rl bl).2,
      e = LogEvent.warning "Low Request-Quota for API."
      ∨ e = LogEvent.warning "Low Bit-Quota for API." := by
  have hb := is_low_quota_bits_logs api bl
  unfold is_low_quota
  split
  · split
    · simp
    · simp
    · exact fun e he => Or.inr (hb e he)
  · exact fun e he => Or.inr (hb e he)

/-- Every log the pipeline emits is one of the six pipeline messages, the
method-tagged ones carrying `"generate_integers"`. -/
theorem request_logs (api : BasicApi) (m : String) (p : PyVal)
    (f : PyVal → Option PyVal) (t : TransportResult) :
    ∀ e ∈ (request api m p f t).logs, e ∈ taggedPipelineLogs := by
  intro e he
  rcases t with _ | r
  · replace he : e ∈ [LogEvent.error (connectionErrorMsg "generate_integers"),
                      LogEvent.error (decodeErrorMsg "generate_integers")] := he
    simp only [List.mem_cons, List.not_mem_nil, or_false] at he
    rcases he with rfl | rfl <;> decide
  · have hstat := is_response_successful_logs r.status_code "generate_integers"
    have hext := extract_result_logs (some r) f "generate_integers"
    have hlq := is_low_quota_logs api
    simp only [request, robust_http_request] at he
    split at he
    · simp only [List.nil_append, List.mem_append] at he
      rcases he with he | he
      · rw [hstat e he]; decide
      · rw [hext e he]; decide
    · split at he
      · simp only [List.nil_append, List.mem_append] at he
        rcases he with (he | he) | he
        · rw [hstat e he]; decide
        · rw [hext e he]; decide
        · rcases hlq _ _ e he with h | h <;> rw [h] <;> decide
      · simp only [List.nil_append, List.mem_append, List.mem_singleton] at he
        rcases he with ((he | he) | he) | he
        · rw [hstat e he]; decide
        · rw [hext e he]; decide
        · rcases hlq _ _ e he with h | h <;> rw [h] <;> decide
        · rw [he]; decide

/-- Claim C1: the spec says every public operation returns an absent result
and raises nothing when the transport fails with a connection error.  On
the code, `_extract_result` then returns `None` and `_request`'s tuple
unpacking raises a `TypeError` to the caller of every operation. -/
theorem conn_error_raises_typeerror_all_ops :
    (generate_integers apiT 5 1 10 true 10 PyVal.none 1 .connError).value
      = .error (.typeError "cannot unpack non-iterable NoneType")
  ∧ (generate_integer_sequences apiT 2 (.list [.int 5, .int 5])
      (.list [.int 1, .int 1]) (.list [.int 10, .int 10]) PyVal.none
      (.int 10) 1 .connError).value
      = .error (.typeError "cannot unpack non-iterable NoneType")
  ∧ (generate_decimal_fractions apiT 5 2 true 1 .connError).value
      = .error (.typeError "cannot unpack non-iterable NoneType")
  ∧ (generate_gaussians apiT 5 (.int 0) (.int 1) 5 1 .connError).value
      = .error (.typeError "cannot unpack non-iterable NoneType")
  ∧ (generate_strings apiT 5 5 "abcdefghijklmnopqrstuvwxyz" true 1
      .connError).value
      = .error (.typeError "cannot unpack non-iterable NoneType")
  ∧ (generate_uuids apiT 2 1 .connError).value
      = .error (.typeError "cannot unpack non-iterable NoneType")
  ∧ (generate_blobs apiT 5 128 1 .connError).value
      = .error (.typeError "cannot unpack non-iterable NoneType")
  ∧ (get_usage apiT 1 .connError).value
      = .error (.typeError "cannot unpack non-iterable NoneType") :=
  ⟨rfl, rfl, rfl, rfl, rfl, rfl, rfl, rfl⟩

/-- Claim C2: the spec says an undecodable body short-circuits with an
absent result, no exception, and no quota check.  On the code every
operation instead raises a `TypeError` from unpacking `None`; the logs
show the extraction error only, so the quota check indeed never ran even
with both thresholds set. -/
theorem malformed_body_raises_typeerror_all_ops :
    (generate_integers apiW 5 1 10 true 10 PyVal.none 1
      (.response ⟨200, Option.none⟩)).value
      = .error (.typeError "cannot unpack non-iterable NoneType")
  ∧ (generate_integer_sequences apiW 2 (.list [.int 5, .int 5])
      (.list [.int 1, .int 1]) (.list [.int 10, .int 10]) PyVal.none
      (.int 10) 1 (.response ⟨200, Option.none⟩)).value
      = .error (.typeError "cannot unpack non-iterable NoneType")
  ∧ (generate_decimal_fractions apiW 5 2 true 1
      (.response ⟨200, Option.none⟩)).value
      = .error (.typeError "cannot unpack non-iterable NoneType")
  ∧ (generate_gaussians apiW 5 (.int 0) (.int 1) 5 1
      (.response ⟨200, Option.none⟩)).value
      = .error (.typeError "cannot unpack non-iterable NoneType")
  ∧ (generate_strings apiW 5 5 "abcdefghijklmnopqrstuvwxyz" true 1
      (.response ⟨200, Option.none⟩)).value
      = .error (.typeError "cannot unpack non-iterable NoneType")
  ∧ (generate_uuids apiW 2 1 (.response ⟨200, Option.none⟩)).value
      = .error (.typeError "cannot unpack non-iterable NoneType")
  ∧ (generate_blobs apiW 5 128 1 (.response ⟨200, Option.none⟩)).value
      = .error (.typeError "cannot unpack non-iterable NoneType")
  ∧ (get_usage apiW 1 (.response ⟨200, Option.none⟩)).value
      = .error (.typeError "cannot unpack non-iterable NoneType")
  ∧ (generate_integers apiW 5 1 10 true 10 PyVal.none 1
      (.response ⟨200, Option.none⟩)).logs
      = [.error (decodeErrorMsg "generate_integers")] :=
  ⟨rfl, rfl, rfl, rfl, rfl, rfl, rfl, rfl, rfl⟩

/-- Claim C3, counterexample: with both thresholds at 5 and both counters
at 1 both low-quota conditions hold, yet only the request warning is
emitted — `_is_low_quota` returns after the first warning, so the checks
are not independent and the claim "both warnings fire" is false. -/
theorem both_quotas_low_single_warning :
    (apiW.warn_below_quota_requests ≠ 0
      ∧ (1 : Int) < apiW.warn_below_quota_requests)
  ∧ (apiW.warn_below_quota_bits ≠ 0
      ∧ (1 : Int) < apiW.warn_below_quota_bits)
  ∧ (is_low_quota apiW (.int 1) (.int 1)).2
      = [.warning "Low Request-Quota for API."]
  ∧ LogEvent.warning "Low Bit-Quota for API."
      ∉ (is_low_quota apiW (.int 1) (.int 1)).2 := by
  refine ⟨⟨?_, ?_⟩, ⟨?_, ?_⟩, rfl, ?_⟩ <;> decide

/-- Claim C3, amended: the request warning fires iff its threshold is
nonzero and the counter is strictly below it; the bit warning fires iff
the request warning did not fire and its own threshold is nonzero with
the counter strictly below it.  At most one warning fires per call. -/
theorem low_quota_warning_conditions (api : BasicApi) (rl bl : Int) :
    ((LogEvent.warning "Low Request-Quota for API."
        ∈ (is_low_quota api (PyVal.int rl) (PyVal.int bl)).2)
      ↔ (api.warn_below_quota_requests ≠ 0
          ∧ rl < api.warn_below_quota_requests))
    ∧ ((LogEvent.warning "Low Bit-Quota for API."
        ∈ (is_low_quota api (PyVal.int rl) (PyVal.int bl)).2)
      ↔ (¬(api.warn_below_quota_requests ≠ 0
            ∧ rl < api.warn_below_quota_requests)
          ∧ api.warn_below_quota_bits ≠ 0
          ∧ bl < api.warn_below_quota_bits)) := by
  by_cases h1 : api.warn_below_quota_requests ≠ 0 <;>
  by_cases h2 : rl < api.warn_below_quota_requests <;>
  by_cases h3 : api.warn_below_quota_bits ≠ 0 <;>
  by_cases h4 : bl < api.warn_below_quota_bits <;>
  simp [is_low_quota, is_low_quota_bits, pyLt, h1, h2, h3, h4]

/-- Claim C4: for every generation operation, a 2xx response whose body
carries `result.random.data` and integer quota counters returns exactly
that `data` with no transformation; in particular the mocked
`generate_integers` scenario returns `[1,2,3,4,5]`. -/
theorem success_returns_projected_data :
    (∀ (api : BasicApi) (num mn mx : Int) (rep : Bool) (base : Int)
       (pre : PyVal) (idv s rl bl : Int) (d : PyVal),
       200 ≤ s → s ≤ 299 →
       (generate_integers api num mn mx rep base pre idv
         (.response ⟨s, some (generationBody d rl bl)⟩)).value = .ok d)
  ∧ (∀ (api : BasicApi) (num : Int) (len mn mx repl base : PyVal)
       (idv s rl bl : Int) (d : PyVal),
       200 ≤ s → s ≤ 299 →
       (generate_integer_sequences api num len mn mx repl base idv
         (.response ⟨s, some (generationBody d rl bl)⟩)).value = .ok d)
  ∧ (∀ (api : BasicApi) (num dp : Int) (rep : Bool) (idv s rl bl : Int)
       (d : PyVal),
       200 ≤ s → s ≤ 299 →
       (generate_decimal_fractions api num dp rep idv
         (.response ⟨s, some (generationBody d rl bl)⟩)).value = .ok d)
  ∧ (∀ (api : BasicApi) (num : Int) (mean sd : PyVal) (sig idv s rl bl : Int)
       (d : PyVal),
       200 ≤ s → s ≤ 299 →
       (generate_gaussians api num mean sd sig idv
         (.response ⟨s, some (generationBody d rl bl)⟩)).value = .ok d)
  ∧ (∀ (api : BasicApi) (num len : Int) (chars : String) (rep : Bool)
       (idv s rl bl : Int) (d : PyVal),
       200 ≤ s → s ≤ 299 →
       (generate_strings api num len chars rep idv
         (.response ⟨s, some (generationBody d rl bl)⟩)).value = .ok d)
  ∧ (∀ (api : BasicApi) (num idv s rl bl : Int) (d : PyVal),
       200 ≤ s → s ≤ 299 →
       (generate_uuids api num idv
         (.response ⟨s, some (generationBody d rl bl)⟩)).value = .ok d)
  ∧ (∀ (api : BasicApi) (num sz idv s rl bl : Int) (d : PyVal),
       200 ≤ s → s ≤ 299 →
       (generate_blobs api num sz idv
         (.response ⟨s, some (generationBody d rl bl)⟩)).value = .ok d)
  ∧ (generate_integers apiT 5 1 10 true 10 PyVal.none 1
       (.response ⟨200, some (generationBody
         (.list [.int 1, .int 2, .int 3, .int 4, .int 5]) 1000 1000)⟩)).value
      = .ok (.list [.int 1, .int 2, .int 3, .int 4, .int 5]) :=
  ⟨fun api _ _ _ _ _ _ _ s rl bl d _ _ =>
     request_ok api "generate_integers" _ randomData
       ⟨s, some (generationBody d rl bl)⟩ d rl bl rfl,
   fun api _ _ _ _ _ _ _ s rl bl d _ _ =>
     request_ok api "generate_integer_sequences" _ randomData
       ⟨s, some (generationBody d rl bl)⟩ d rl bl rfl,
   fun api _ _ _ _ s rl bl d _ _ =>
     request_ok api "generate_decimal_fractions" _ randomData
       ⟨s, some (generationBody d rl bl)⟩ d rl bl rfl,
   fun api _ _ _ _ _ s rl bl d _ _ =>
     request_ok api "generate_gaussians" _ randomData
       ⟨s, some (generationBody d rl bl)⟩ d rl bl rfl,
   fun api _ _ _ _ _ s rl bl d _ _ =>
     request_ok api "generate_strings" _ randomData
       ⟨s, some (generationBody d rl bl)⟩ d rl bl rfl,
   fun api _ _ s rl bl d _ _ =>
     request_ok api "generate_uuids" _ randomData
       ⟨s, some (generationBody d rl bl)⟩ d rl bl rfl,
   fun api _ _ _ s rl bl d _ _ =>
     request_ok api "generate_blobs" _ randomData
       ⟨s, some (generationBody d rl bl)⟩ d rl bl rfl,
   rfl⟩

/-- Claim C4, witness: the mocked scenario through the general statement. -/
theorem success_returns_projected_data_witness :
    (generate_integers apiT 5 1 10 true 10 PyVal.none 1
      (.response ⟨250, some (generationBody (.list [.int 7]) 1000 1000)⟩)).value
      = .ok (.list [.int 7]) :=
  success_returns_projected_data.1 apiT 5 1 10 true 10 PyVal.none 1 250
    1000 1000 (.list [.int 7]) (by decide) (by decide)

/-- Claim C5: the spec requires the `"base"` entry of the
`generate_integer_sequences` payload to be the caller-supplied per-sequence
base list.  The code instead stores the type expression `list[int]`, a
constant placeholder, for every call — the defect the spec itself flags. -/
theorem integer_sequences_payload_base_placeholder :
    ((generate_integer_sequences_payload apiT 2 (.list [.int 5, .int 5])
        (.list [.int 1, .int 1]) (.list [.int 10, .int 10])
        (.list [.bool true, .bool false]) (.list [.int 10, .int 10])
        1).getItem "params").bind (fun ps => ps.getItem "base")
      = some (.typeExpr "list[int]")
  ∧ ((generate_integer_sequences_payload apiT 2 (.list [.int 5, .int 5])
        (.list [.int 1, .int 1]) (.list [.int 10, .int 10])
        (.list [.bool true, .bool false]) (.list [.int 10, .int 10])
        1).getItem "params").bind (fun ps => ps.getItem "base")
      ≠ some (.list [.int 10, .int 10]) := by
  refine ⟨rfl, fun h => ?_⟩
  have h' : some (PyVal.typeExpr "list[int]")
      = some (PyVal.list [.int 10, .int 10]) := h
  injection h' with h2
  exact PyVal.noConfusion h2

/-- Claim C6: `get_usage` on a well-formed usage body returns the
snake_case mapping carrying the four values unchanged; in particular the
mocked scenario returns the expected mapping. -/
theorem get_usage_maps_four_fields :
    (∀ (api : BasicApi) (idv s bl rl : Int) (tb tr : PyVal),
       (get_usage api idv (.response ⟨s, some (usageBody bl rl tb tr)⟩)).value
         = .ok (.dict [("bits_left", .int bl), ("requests_left", .int rl),
                       ("total_bits", tb), ("total_requests", tr)]))
  ∧ (get_usage apiT 1 (.response ⟨200,
        some (usageBody 1000 100 (.int 2000) (.int 200))⟩)).value
      = .ok (.dict [("bits_left", .int 1000), ("requests_left", .int 100),
                    ("total_bits", .int 2000), ("total_requests", .int 200)]) :=
  ⟨fun api idv s bl rl tb tr =>
     request_ok api "get_usage" _ usageData
       ⟨s, some (usageBody bl rl tb tr)⟩
       (.dict [("bits_left", .int bl), ("requests_left", .int rl),
               ("total_bits", tb), ("total_requests", tr)]) rl bl rfl,
   rfl⟩

/-- Claim C7: a response with a status outside 2xx gets the non-success
warning logged, yet the pipeline still extracts the body; with a
well-formed body the extracted data is returned, for every operation. -/
theorem non2xx_warns_and_still_returns_data :
    (∀ (api : BasicApi) (num mn mx : Int) (rep : Bool) (base : Int)
       (pre : PyVal) (idv s rl bl : Int) (d : PyVal),
       ¬(200 ≤ s ∧ s ≤ 299) →
       (generate_integers api num mn mx rep base pre idv
         (.response ⟨s, some (generationBody d rl bl)⟩)).value = .ok d
       ∧ LogEvent.warning (nonSuccessMsg "generate_integers")
           ∈ (generate_integers api num mn mx rep base pre idv
               (.response ⟨s, some (generationBody d rl bl)⟩)).logs)
  ∧ (∀ (api : BasicApi) (num : Int) (len mn mx repl base : PyVal)
       (idv s rl bl : Int) (d : PyVal),
       ¬(200 ≤ s ∧ s ≤ 299) →
       (generate_integer_sequences api num len mn mx repl base idv
         (.response ⟨s, some (generationBody d rl bl)⟩)).value = .ok d
       ∧ LogEvent.warning (nonSuccessMsg "generate_integers")
           ∈ (generate_integer_sequences api num len mn mx repl base idv
               (.response ⟨s, some (generationBody d rl bl)⟩)).logs)
  ∧ (∀ (api : BasicApi) (num dp : Int) (rep : Bool) (idv s rl bl : Int)
       (d : PyVal),
       ¬(200 ≤ s ∧ s ≤ 299) →
       (generate_decimal_fractions api num dp rep idv
         (.response ⟨s, some (generationBody d rl bl)⟩)).value = .ok d
       ∧ LogEvent.warning (nonSuccessMsg "generate_integers")
           ∈ (generate_decimal_fractions api num dp rep idv
               (.response ⟨s, some (generationBody d rl bl)⟩)).logs)
  ∧ (∀ (api : BasicApi) (num : Int) (mean sd : PyVal) (sig idv s rl bl : Int)
       (d : PyVal),
       ¬(200 ≤ s ∧ s ≤ 299) →
       (generate_gaussians api num mean sd sig idv
         (.response ⟨s, some (generationBody d rl bl)⟩)).value = .ok d
       ∧ LogEvent.warning (nonSuccessMsg "generate_integers")
           ∈ (generate_gaussians api num mean sd sig idv
               (.response ⟨s, some (generationBody d rl bl)⟩)).logs)
  ∧ (∀ (api : BasicApi) (num len : Int) (chars : String) (rep : Bool)
       (idv s rl bl : Int) (d : PyVal),
       ¬(200 ≤ s ∧ s ≤ 299) →
       (generate_strings api num len chars rep idv
         (.response ⟨s, some (generationBody d rl bl)⟩)).value = .ok d
       ∧ LogEvent.warning (nonSuccessMsg "generate_integers")
           ∈ (generate_strings api num len chars rep idv
               (.response ⟨s, some (generationBody d rl bl)⟩)).logs)
  ∧ (∀ (api : BasicApi) (num idv s rl bl : Int) (d : PyVal),
       ¬(200 ≤ s ∧ s ≤ 299) →
       (generate_uuids api num idv
         (.response ⟨s, some (generationBody d rl bl)⟩)).value = .ok d
       ∧ LogEvent.warning (nonSuccessMsg "generate_integers")
           ∈ (generate_uuids api num idv
               (.response ⟨s, some (generationBody d rl bl)⟩)).logs)
  ∧ (∀ (api : BasicApi) (num sz idv s rl bl : Int) (d : PyVal),
       ¬(200 ≤ s ∧ s ≤ 299) →
       (generate_blobs api num sz idv
         (.response ⟨s, some (generationBody d rl bl)⟩)).value = .ok d
       ∧ LogEvent.warning (nonSuccessMsg "generate_integers")
           ∈ (generate_blobs api num sz idv
               (.response ⟨s, some (generationBody d rl bl)⟩)).logs)
  ∧ (∀ (api : BasicApi) (idv s bl rl : Int) (tb tr : PyVal),
       ¬(200 ≤ s ∧ s ≤ 299) →
       (get_usage api idv (.response ⟨s, some (usageBody bl rl tb tr)⟩)).value
         = .ok (.dict [("bits_left", .int bl), ("requests_left", .int rl),
                       ("total_bits", tb), ("total_requests", tr)])
       ∧ LogEvent.warning (nonSuccessMsg "generate_integers")
           ∈ (get_usage api idv
               (.response ⟨s, some (usageBody bl rl tb tr)⟩)).logs) :=
  ⟨fun api _ _ _ _ _ _ _ s rl bl d hs =>
     request_non2xx api "generate_integers" _ randomData
       ⟨s, some (generationBody d rl bl)⟩ d rl bl hs rfl,
   fun api _ _ _ _ _ _ _ s rl bl d hs =>
     request_non2xx api "generate_integer_sequences" _ randomData
       ⟨s, some (generationBody d rl bl)⟩ d rl bl hs rfl,
   fun api _ _ _ _ s rl bl d hs =>
     request_non2xx api "generate_decimal_fractions" _ randomData
       ⟨s, some (generationBody d rl bl)⟩ d rl bl hs rfl,
   fun api _ _ _ _ _ s rl bl d hs =>
     request_non2xx api "generate_gaussians" _ randomData
       ⟨s, some (generationBody d rl bl)⟩ d rl bl hs rfl,
   fun api _ _ _ _ _ s rl bl d hs =>
     request_non2xx api "generate_strings" _ randomData
       ⟨s, some (generationBody d rl bl)⟩ d rl bl hs rfl,
   fun api _ _ s rl bl d hs =>
     request_non2xx api "generate_uuids" _ randomData
       ⟨s, some (generationBody d rl bl)⟩ d rl bl hs rfl,
   fun api _ _ _ s rl bl d hs =>
     request_non2xx api "generate_blobs" _ randomData
       ⟨s, some (generationBody d rl bl)⟩ d rl bl hs rfl,
   fun api _ s bl rl tb tr hs =>
     request_non2xx api "get_usage" _ usageData
       ⟨s, some (usageBody bl rl tb tr)⟩
       (.dict [("bits_left", .int bl), ("requests_left", .int rl),
               ("total_bits", tb), ("total_requests", tr)]) rl bl hs rfl⟩

/-- Claim C7, witness: a 500 status with a well-formed body still returns
the data and carries the non-success warning in the logs. -/
theorem non2xx_warns_and_still_returns_data_witness :
    (generate_integers apiT 5 1 10 true 10 PyVal.none 1
      (.response ⟨500, some (generationBody (.list [.int 9]) 1000 1000)⟩)).value
      = .ok (.list [.int 9])
    ∧ LogEvent.warning (nonSuccessMsg "generate_integers")
        ∈ (generate_integers apiT 5 1 10 true 10 PyVal.none 1
            (.response ⟨500, some (generationBody (.list [.int 9])
              1000 1000)⟩)).logs :=
  non2xx_warns_and_still_returns_data.1 apiT 5 1 10 true 10 PyVal.none 1
    500 1000 1000 (.list [.int 9]) (by decide)

/-- Claim C8, counterexample: two clients differing only in the request
threshold, fed the same response whose `requestsLeft` is the string
`"many"`: the zero-threshold client returns the data, the nonzero one
raises a `TypeError` from the quota comparison — so the quota check is
not purely observational on the code. -/
theorem threshold_changes_value_on_nonint_counter :
    (generate_integers ⟨"u", "k", "4.0", 0, 0⟩ 1 1 10 true 10 PyVal.none 1
      (.response ⟨200, some nonIntCounterBody⟩)).value
      = .ok (.list [.int 1])
  ∧ (generate_integers ⟨"u", "k", "4.0", 5, 0⟩ 1 1 10 true 10 PyVal.none 1
      (.response ⟨200, some nonIntCounterBody⟩)).value
      = .error (.typeError "unorderable types in comparison with int")
  ∧ (generate_integers ⟨"u", "k", "4.0", 0, 0⟩ 1 1 10 true 10 PyVal.none 1
      (.response ⟨200, some nonIntCounterBody⟩)).value
      ≠ (generate_integers ⟨"u", "k", "4.0", 5, 0⟩ 1 1 10 true 10 PyVal.none 1
      (.response ⟨200, some nonIntCounterBody⟩)).value :=
  ⟨rfl, rfl, fun h => nomatch h⟩

/-- Claim C8, amended: for clients differing only in their two warning
thresholds, every operation returns the same value whenever the quota
comparison cannot raise — i.e. whenever extraction fails or both extracted
counters are integers. -/
theorem value_independent_of_thresholds :
    (∀ (u k v : String) (wr wb wr2 wb2 num mn mx : Int) (rep : Bool)
       (base : Int) (pre : PyVal) (idv : Int) (t : TransportResult),
       quotaCountersSafe randomData t = true →
       (generate_integers ⟨u, k, v, wr, wb⟩ num mn mx rep base pre idv t).value
         = (generate_integers ⟨u, k, v, wr2, wb2⟩ num mn mx rep base pre idv
             t).value)
  ∧ (∀ (u k v : String) (wr wb wr2 wb2 num : Int)
       (len mn mx repl base : PyVal) (idv : Int) (t : TransportResult),
       quotaCountersSafe randomData t = true →
       (generate_integer_sequences ⟨u, k, v, wr, wb⟩ num len mn mx repl base
          idv t).value
         = (generate_integer_sequences ⟨u, k, v, wr2, wb2⟩ num len mn mx repl
             base idv t).value)
  ∧ (∀ (u k v : String) (wr wb wr2 wb2 num dp : Int) (rep : Bool) (idv : Int)
       (t : TransportResult),
       quotaCountersSafe randomData t = true →
       (generate_decimal_fractions ⟨u, k, v, wr, wb⟩ num dp rep idv t).value
         = (generate_decimal_fractions ⟨u, k, v, wr2, wb2⟩ num dp rep idv
             t).value)
  ∧ (∀ (u k v : String) (wr wb wr2 wb2 num : Int) (mean sd : PyVal)
       (sig idv : Int) (t : TransportResult),
       quotaCountersSafe randomData t = true →
       (generate_gaussians ⟨u, k, v, wr, wb⟩ num mean sd sig idv t).value
         = (generate_gaussians ⟨u, k, v, wr2, wb2⟩ num mean sd sig idv
             t).value)
  ∧ (∀ (u k v : String) (wr wb wr2 wb2 num len : Int) (chars : String)
       (rep : Bool) (idv : Int) (t : TransportResult),
       quotaCountersSafe randomData t = true →
       (generate_strings ⟨u, k, v, wr, wb⟩ num len chars rep idv t).value
         = (generate_strings ⟨u, k, v, wr2, wb2⟩ num len chars rep idv
             t).value)
  ∧ (∀ (u k v : String) (wr wb wr2 wb2 num idv : Int) (t : TransportResult),
       quotaCountersSafe randomData t = true →
       (generate_uuids ⟨u, k, v, wr, wb⟩ num idv t).value
         = (generate_uuids ⟨u, k, v, wr2, wb2⟩ num idv t).value)
  ∧ (∀ (u k v : String) (wr wb wr2 wb2 num sz idv : Int)
       (t : TransportResult),
       quotaCountersSafe randomData t = true →
       (generate_blobs ⟨u, k, v, wr, wb⟩ num sz idv t).value
         = (generate_blobs ⟨u, k, v, wr2, wb2⟩ num sz idv t).value)
  ∧ (∀ (u k v : String) (wr wb wr2 wb2 idv : Int) (t : TransportResult),
       quotaCountersSafe usageData t = true →
       (get_usage ⟨u, k, v, wr, wb⟩ idv t).value
         = (get_usage ⟨u, k, v, wr2, wb2⟩ idv t).value) :=
  ⟨fun u k v wr wb wr2 wb2 _ _ _ _ _ _ _ t h =>
     request_value_cfg u k v wr wb wr2 wb2 "generate_integers"
       "generate_integers" _ _ randomData t h,
   fun u k v wr wb wr2 wb2 _ _ _ _ _ _ _ t h =>
     request_value_cfg u k v wr wb wr2 wb2 "generate_integer_sequences"
       "generate_integer_sequences" _ _ randomData t h,
   fun u k v wr wb wr2 wb2 _ _ _ _ t h =>
     request_value_cfg u k v wr wb wr2 wb2 "generate_decimal_fractions"
       "generate_decimal_fractions" _ _ randomData t h,
   fun u k v wr wb wr2 wb2 _ _ _ _ _ t h =>
     request_value_cfg u k v wr wb wr2 wb2 "generate_gaussians"
       "generate_gaussians" _ _ randomData t h,
   fun u k v wr wb wr2 wb2 _ _ _ _ _ t h =>
     request_value_cfg u k v wr wb wr2 wb2 "generate_strings"
       "generate_strings" _ _ randomData t h,
   fun u k v wr wb wr2 wb2 _ _ t h =>
     request_value_cfg u k v wr wb wr2 wb2 "generate_uuids"
       "generate_uuids" _ _ randomData t h,
   fun u k v wr wb wr2 wb2 _ _ _ t h =>
     request_value_cfg u k v wr wb wr2 wb2 "generate_blobs"
       "generate_blobs" _ _ randomData t h,
   fun u k v wr wb wr2 wb2 _ t h =>
     request_value_cfg u k v wr wb wr2 wb2 "get_usage"
       "get_usage" _ _ usageData t h⟩

/-- Claim C8, witness: with integer counters, a zero-threshold client and a
nonzero-threshold client return the same value. -/
theorem value_independent_of_thresholds_witness :
    (generate_integers ⟨"u", "k", "4.0", 0, 0⟩ 1 1 10 true 10 PyVal.none 1
      (.response ⟨200, some (generationBody (.list [.int 1]) 1000 1000)⟩)).value
      = (generate_integers ⟨"u", "k", "4.0", 7, 9⟩ 1 1 10 true 10 PyVal.none 1
      (.response ⟨200, some (generationBody (.list [.int 1]) 1000 1000)⟩)).value :=
  value_independent_of_thresholds.1 "u" "k" "4.0" 0 0 7 9 1 1 10 true 10
    PyVal.none 1 (.response ⟨200, some (generationBody (.list [.int 1])
      1000 1000)⟩) rfl

/-- Claim C9: no public operation assigns any attribute of the client, so
the configuration after any call on any transport outcome is the one the
client was constructed with. -/
theorem config_unchanged_all_ops (api : BasicApi) (t : TransportResult)
    (num mn mx : Int) (rep : Bool) (base idv : Int) (pre : PyVal)
    (len mnL mxL repL baseL mean sd : PyVal)
    (dp sig sz lenS : Int) (chars : String) :
    (generate_integers api num mn mx rep base pre idv t).state = api
  ∧ (generate_integer_sequences api num len mnL mxL repL baseL idv t).state
      = api
  ∧ (generate_decimal_fractions api num dp rep idv t).state = api
  ∧ (generate_gaussians api num mean sd sig idv t).state = api
  ∧ (generate_strings api num lenS chars rep idv t).state = api
  ∧ (generate_uuids api num idv t).state = api
  ∧ (generate_blobs api num sz idv t).state = api
  ∧ (get_usage api idv t).state = api :=
  ⟨request_state api "generate_integers" _ randomData t,
   request_state api "generate_integer_sequences" _ randomData t,
   request_state api "generate_decimal_fractions" _ randomData t,
   request_state api "generate_gaussians" _ randomData t,
   request_state api "generate_strings" _ randomData t,
   request_state api "generate_uuids" _ randomData t,
   request_state api "generate_blobs" _ randomData t,
   request_state api "get_usage" _ usageData t⟩

/-- Claim C10: every diagnostic event any operation emits is one of the six
pipeline messages, and the four method-tagged ones all carry the literal
`"generate_integers"` — `_request` ignores its `method` argument; e.g. a
connection error during `generate_uuids` logs
`basicApi.generate_integers()` messages. -/
theorem diagnostics_tagged_generate_integers :
    (∀ (api : BasicApi) (num mn mx : Int) (rep : Bool) (base : Int)
       (pre : PyVal) (idv : Int) (t : TransportResult),
       ∀ e ∈ (generate_integers api num mn mx rep base pre idv t).logs,
         e ∈ taggedPipelineLogs)
  ∧ (∀ (api : BasicApi) (num : Int) (len mn mx repl base : PyVal) (idv : Int)
       (t : TransportResult),
       ∀ e ∈ (generate_integer_sequences api num len mn mx repl base idv
                t).logs,
         e ∈ taggedPipelineLogs)
  ∧ (∀ (api : BasicApi) (num dp : Int) (rep : Bool) (idv : Int)
       (t : TransportResult),
       ∀ e ∈ (generate_decimal_fractions api num dp rep idv t).logs,
         e ∈ taggedPipelineLogs)
  ∧ (∀ (api : BasicApi) (num : Int) (mean sd : PyVal) (sig idv : Int)
       (t : TransportResult),
       ∀ e ∈ (generate_gaussians api num mean sd sig idv t).logs,
         e ∈ taggedPipelineLogs)
  ∧ (∀ (api : BasicApi) (num len : Int) (chars : String) (rep : Bool)
       (idv : Int) (t : TransportResult),
       ∀ e ∈ (generate_strings api num len chars rep idv t).logs,
         e ∈ taggedPipelineLogs)
  ∧ (∀ (api : BasicApi) (num idv : Int) (t : TransportResult),
       ∀ e ∈ (generate_uuids api num idv t).logs, e ∈ taggedPipelineLogs)
  ∧ (∀ (api : BasicApi) (num sz idv : Int) (t : TransportResult),
       ∀ e ∈ (generate_blobs api num sz idv t).logs, e ∈ taggedPipelineLogs)
  ∧ (∀ (api : BasicApi) (idv : Int) (t : TransportResult),
       ∀ e ∈ (get_usage api idv t).logs, e ∈ taggedPipelineLogs)
  ∧ (generate_uuids apiT 2 1 .connError).logs
      = [.error (connectionErrorMsg "generate_integers"),
         .error (decodeErrorMsg "generate_integers")] :=
  ⟨fun api _ _ _ _ _ _ _ t => request_logs api "generate_integers" _
     randomData t,
   fun api _ _ _ _ _ _ _ t => request_logs api "generate_integer_sequences" _
     randomData t,
   fun api _ _ _ _ t => request_logs api "generate_decimal_fractions" _
     randomData t,
   fun api _ _ _ _ _ t => request_logs api "generate_gaussians" _
     randomData t,
   fun api _ _ _ _ _ t => request_logs api "generate_strings" _
     randomData t,
   fun api _ _ t => request_logs api "generate_uuids" _ randomData t,
   fun api _ _ _ t => request_logs api "generate_blobs" _ randomData t,
   fun api _ t => request_logs api "get_usage" _ usageData t,
   rfl⟩

/-- Claim C10, witness: the connection-error event that `generate_uuids`
emits is among the `generate_integers`-tagged pipeline messages. -/
theorem diagnostics_tagged_generate_integers_witness :
    LogEvent.error (connectionErrorMsg "generate_integers")
      ∈ taggedPipelineLogs :=
  diagnostics_tagged_generate_integers.2.2.2.2.2.1 apiT 2 1 .connError
    (LogEvent.error (connectionErrorMsg "generate_integers")) (by decide)

end BasicApi

end RandomOrg
